import Mathlib

/-!
Verification of the QA report generator (src/streamlit_app.py).

Python strings are modelled as `List Char`; Python `str.replace` with a
one-character pattern, `str.split('\n')`, `str.strip()`, `str.upper()` and
the `in` substring test are modelled by the recursive functions below.
Python float percentage arithmetic is modelled over `ℚ`; every concrete
input at which a formatted one-decimal string is compared lies far from a
rounding tie, where the rational and IEEE-double computations agree digit
for digit.  A raised `ZeroDivisionError` is modelled as `none`.
-/

/-- Model of the substring scan underlying Python's `in` test:
`startsWith s p` is true when `p` is an initial segment of `s`. -/
def startsWith : List Char → List Char → Bool
  | _, [] => true
  | [], _ :: _ => false
  | a :: s, b :: p => (a == b) && startsWith s p

/-- Python's `pat in s` substring test (for nonempty `pat`). -/
def listHasSub : List Char → List Char → Bool
  | [], p => p.isEmpty
  | s@(_ :: rest), p => startsWith s p || listHasSub rest p

/-- Python's `str.strip()`: remove leading and trailing whitespace. -/
def pyStrip (s : List Char) : List Char :=
  ((s.dropWhile Char.isWhitespace).reverse.dropWhile Char.isWhitespace).reverse

/-- Python's `str.split(sep)` for a one-character separator. -/
def splitOnChar (t : Char) : List Char → List (List Char)
  | [] => [[]]
  | c :: s =>
    if c = t then [] :: splitOnChar t s
    else
      match splitOnChar t s with
      | [] => [[c]]
      | h :: r => (c :: h) :: r

/-- Python's `str.replace(old, new)` for a one-character `old`. -/
def pyReplaceChar (t : Char) (rep : List Char) : List Char → List Char
  | [] => []
  | x :: xs => (if x = t then rep else [x]) ++ pyReplaceChar t rep xs

/-- Python's `str.upper()` (ASCII part, which is all the code compares). -/
def pyUpper (s : List Char) : List Char := s.map Char.toUpper

/-- The single-quote character (written via its code point). -/
def sqc : Char := Char.ofNat 39

/-- The double-quote character (written via its code point). -/
def dqc : Char := Char.ofNat 34

/-- `escape_html` (src/streamlit_app.py lines 502-520): five chained
`replace` calls, ampersand first, on the string branch of the
`isinstance` test. -/
def escape_html (s : List Char) : List Char :=
  pyReplaceChar sqc ("&#39;".toList)
    (pyReplaceChar dqc ("&quot;".toList)
      (pyReplaceChar '>' ("&gt;".toList)
        (pyReplaceChar '<' ("&lt;".toList)
          (pyReplaceChar '&' ("&amp;".toList) s))))

/-- The per-character entity map described by the spec (one entity per
special character, all other characters untouched). -/
def escapeCharSpec (c : Char) : List Char :=
  if c = '&' then ("&amp;".toList)
  else if c = '<' then ("&lt;".toList)
  else if c = '>' then ("&gt;".toList)
  else if c = dqc then ("&quot;".toList)
  else if c = sqc then ("&#39;".toList)
  else [c]

/-- Spec-side reading of `escape_html`: apply `escapeCharSpec` to every
character independently (so no already-produced entity is corrupted). -/
def escapeHtmlSpec : List Char → List Char
  | [] => []
  | c :: s => escapeCharSpec c ++ escapeHtmlSpec s

/-- A Python value handed to `escape_html`: a string or a non-string
(represented by the integer case actually present in the report data). -/
inductive PyVal
  | str (s : List Char)
  | int (n : ℤ)

/-- Top of `escape_html`: non-strings are converted with `str()` and
returned without entity replacement. -/
def pyEscapeAny : PyVal → List Char
  | PyVal.str s => escape_html s
  | PyVal.int n => (toString n).toList

/-- DOCX pass percentage (line 235): `pass / total * 100 if total > 0 else 0`. -/
def docx_pass_pct (p total : ℕ) : ℚ :=
  if 0 < total then (p : ℚ) / (total : ℚ) * 100 else 0

/-- DOCX fail percentage (line 236): `100 - pass_pct`. -/
def docx_fail_pct (p total : ℕ) : ℚ := 100 - docx_pass_pct p total

/-- HTML pass percentage (line 545), textually identical to the DOCX one. -/
def html_pass_pct (p total : ℕ) : ℚ :=
  if 0 < total then (p : ℚ) / (total : ℚ) * 100 else 0

/-- HTML fail percentage (line 546): `100 - pass_pct`. -/
def html_fail_pct (p total : ℕ) : ℚ := 100 - html_pass_pct p total

/-- XLSX pass percentage (line 858): unguarded `pass / total * 100`;
division by zero raises, modelled as `none`. -/
def xlsx_pass_pct (p total : ℕ) : Option ℚ :=
  if total = 0 then none else some ((p : ℚ) / (total : ℚ) * 100)

/-- XLSX fail percentage (line 859): unguarded `fail / total * 100`,
computed independently of the pass percentage. -/
def xlsx_fail_pct (f total : ℕ) : Option ℚ :=
  if total = 0 then none else some ((f : ℚ) / (total : ℚ) * 100)

/-- Python's `:.1f` format for the nonnegative rationals used here:
round to one decimal and print (ties round up; all compared inputs are
far from ties, where this agrees with double formatting). -/
def fmt1 (q : ℚ) : String :=
  toString ((⌊q * 10 + 1 / 2⌋).toNat / 10) ++ "." ++ toString ((⌊q * 10 + 1 / 2⌋).toNat % 10)

/-- DOCX summary cell (line 244): `f"{pass} ({pass_pct:.1f}%)"`. -/
def docx_pass_cell (p t : ℕ) : String :=
  toString p ++ " (" ++ fmt1 (docx_pass_pct p t) ++ "%)"

/-- DOCX summary cell (line 245): `f"{fail} ({fail_pct:.1f}%)"`. -/
def docx_fail_cell (p f t : ℕ) : String :=
  toString f ++ " (" ++ fmt1 (docx_fail_pct p t) ++ "%)"

/-- HTML summary cell (line 668). -/
def html_pass_cell (p t : ℕ) : String :=
  toString p ++ " (" ++ fmt1 (html_pass_pct p t) ++ "%)"

/-- HTML summary cell (line 669). -/
def html_fail_cell (p f t : ℕ) : String :=
  toString f ++ " (" ++ fmt1 (html_fail_pct p t) ++ "%)"

/-- XLSX summary cell (line 858). -/
def xlsx_pass_cell (p t : ℕ) : Option String :=
  (xlsx_pass_pct p t).map (fun q => toString p ++ " (" ++ fmt1 q ++ "%)")

/-- XLSX summary cell (line 859). -/
def xlsx_fail_cell (f t : ℕ) : Option String :=
  (xlsx_fail_pct f t).map (fun q => toString f ++ " (" ++ fmt1 q ++ "%)")

/-- Severity-bar y-axis limit in `generate_docx` (line 298):
`max(s1, s2, 1) * 1.3`. -/
def docx_bar_ylim (s1 s2 : ℕ) : ℚ := ((max (max s1 s2) 1 : ℕ) : ℚ) * (13 / 10)

/-- Severity-bar y-axis limit in `generate_chart_base64` (line 473):
`max(s1, s2, 1) * 1.3`. -/
def chart_bar_ylim (s1 s2 : ℕ) : ℚ := ((max (max s1 s2) 1 : ℕ) : ℚ) * (13 / 10)

/-- The spec's formula: 1.3 times the larger of the two counts, with a
floor of 1. -/
def spec_bar_ylim (s1 s2 : ℕ) : ℚ := max (max (s1 : ℚ) (s2 : ℚ)) 1 * (13 / 10)

/-- The five validation checks run on submission (lines 1249-1268),
identified by tags (the Python code appends message strings). -/
inductive VError
  | sumMismatch
  | nonposTotal
  | negDefects
  | emptyTitle
  | countExceeds
deriving DecidableEq

/-- `validation_errors` (lines 1249-1268): every check is evaluated and
its error appended; no check is skipped because an earlier one failed. -/
def validationErrors (ptc ftc ttc s1 s2 : ℤ) (title : List Char) : List VError :=
  (if ptc + ftc ≠ ttc then [VError.sumMismatch] else []) ++
  (if ttc ≤ 0 then [VError.nonposTotal] else []) ++
  (if s1 < 0 ∨ s2 < 0 then [VError.negDefects] else []) ++
  (if pyStrip title = [] then [VError.emptyTitle] else []) ++
  (if ttc < ptc ∨ ttc < ftc then [VError.countExceeds] else [])

/-- Outcome of a form submission: blocked with the collected errors
(`st.stop()` at line 1274, before any renderer runs) or rendered. -/
inductive SubmitResult
  | blocked (errs : List VError)
  | rendered
deriving DecidableEq

/-- Lines 1271-1274: if any validation error exists the submission is
blocked and no renderer is invoked; otherwise generation proceeds. -/
def submit (ptc ftc ttc s1 s2 : ℤ) (title : List Char) : SubmitResult :=
  if validationErrors ptc ftc ttc s1 s2 title = [] then SubmitResult.rendered
  else SubmitResult.blocked (validationErrors ptc ftc ttc s1 s2 title)

/-- The generation block (lines 1309-1365): the three renderer calls sit
inside one `try`; a raised exception anywhere propagates to the single
`except` and the remaining calls never run.  Each renderer's outcome is
a parameter (`Except.error` models a raised exception). -/
def generateReports {ε α : Type} (r1 r2 r3 : Except ε α) : Except ε (α × α × α) :=
  match r1 with
  | Except.error e => Except.error e
  | Except.ok a =>
    match r2 with
    | Except.error e => Except.error e
    | Except.ok b =>
      match r3 with
      | Except.error e => Except.error e
      | Except.ok c =>
        Except.ok (a, b, c)

/-- A pandas DataFrame as the renderers use it: a fixed column schema
plus a list of rows of cell strings. -/
structure Df where
  cols : List (List Char)
  rows : List (List (List Char))
deriving DecidableEq

/-- A block emitted into the DOCX document: a paragraph, or a table with
its cell grid and whether the `Table Grid` style was applied. -/
inductive DocxBlock
  | para (txt : List Char)
  | table (cells : List (List (List Char))) (grid : Bool)
deriving DecidableEq

/-- `add_table_from_df` (lines 62-139): zero columns give a "no data"
paragraph; zero rows give a 2-row table (header plus one row of empty
cells) without the grid style; otherwise a header row plus the data
rows with the grid style.  A spacing paragraph follows in every case. -/
def add_table_from_df (df : Df) : List DocxBlock :=
  if df.cols.length = 0 then
    [DocxBlock.para ("Нет данных для отображения".toList), DocxBlock.para []]
  else if df.rows = [] then
    [DocxBlock.table [df.cols, df.cols.map (fun _ => [])] false, DocxBlock.para []]
  else
    [DocxBlock.table (df.cols :: df.rows) true, DocxBlock.para []]

/-- Status CSS class in the HTML module tables (line 710). -/
def html_status_class (s : List Char) : List Char :=
  if pyUpper s = ("PASS".toList) then ("status-pass".toList)
  else if pyUpper s = ("FAIL".toList) then ("status-fail".toList)
  else []

/-- One HTML module-table data row (line 711); the four cells come from
the fixed 4-column schema. -/
def html_test_row (c0 c1 c2 c3 : List Char) : List Char :=
  ("<tr><td>".toList) ++ escape_html c0 ++
  ("</td><td>".toList) ++ escape_html c1 ++
  ("</td><td class=".toList) ++ [sqc] ++ html_status_class c2 ++ [sqc] ++
  (">".toList) ++ escape_html c2 ++
  ("</td><td>".toList) ++ escape_html c3 ++
  ("</td></tr>".toList)

/-- The HTML placeholder row for an empty module table (line 713). -/
def html_no_data_row : List Char :=
  ("<tr><td colspan=".toList) ++ [sqc] ++ ("4".toList) ++ [sqc] ++
  (" style=".toList) ++ [sqc] ++ ("text-align:center".toList) ++ [sqc] ++
  (">Нет данных</td></tr>".toList)

/-- One HTML module table (lines 705-714): fixed header row, then the
data rows, or the placeholder row when the DataFrame is empty. -/
def html_module_table (df : Df) : List Char :=
  ("<table><tr><th style=\"width: 15%;\">ID</th><th>Сценарий</th><th style=\"width: 12%;\">Статус</th><th>Комментарий</th></tr>".toList) ++
  (if df.rows = [] then html_no_data_row
   else (df.rows.map (fun r =>
     html_test_row (r.getD 0 []) (r.getD 1 []) (r.getD 2 []) (r.getD 3 []))).flatten) ++
  ("</table>".toList)

/-- XLSX module section data rows (lines 947-975): for each module, rows
are emitted only when its DataFrame is nonempty (module name prepended);
an empty module contributes nothing, with no placeholder. -/
def xlsx_module_rows : List (List Char × Df) → List (List (List Char))
  | [] => []
  | m :: ms =>
    (if m.2.rows = [] then [] else m.2.rows.map (fun r => m.1 :: r)) ++
    xlsx_module_rows ms

/-- A zero-row test-case table with the fixed 4-column schema. -/
def emptyTestDf : Df :=
  ⟨[("ID".toList), ("Сценарий".toList), ("Статус".toList), ("Комментарий".toList)], []⟩

/-- DOCX limitations section (lines 381-385): each non-blank line of the
field becomes one paragraph reading `"• " + line.strip()`. -/
def docx_limitations (lim : List Char) : List (List Char) :=
  ((splitOnChar '\n' lim).filter (fun l => !(pyStrip l).isEmpty)).map
    (fun l => ("• ".toList) ++ pyStrip l)

/-- HTML limitations section (lines 730-734): heading, then one `<li>`
per non-blank line inside a `<ul>`. -/
def html_limitations (lim : List Char) : List Char :=
  ("<h2>5. ОГРАНИЧЕНИЯ ТЕСТИРОВАНИЯ</h2><ul>".toList) ++
  (((splitOnChar '\n' lim).filter (fun l => !(pyStrip l).isEmpty)).map
    (fun l => ("<li>".toList) ++ escape_html (pyStrip l) ++ ("</li>".toList))).flatten ++
  ("</ul>".toList)

/-- A conditional cell style in the XLSX output: fill color, font color,
bold flag. -/
structure XlsxStyle where
  fill : List Char
  fontColor : List Char
  fontBold : Bool
deriving DecidableEq

/-- XLSX defect severity styling (lines 1011-1018): a severity containing
"Critical" gets the red fill, otherwise one containing "Major" gets the
orange fill, both with white bold font; otherwise no fill. -/
def xlsx_severity_style (sev : List Char) : Option XlsxStyle :=
  if listHasSub sev ("Critical".toList) then
    some ⟨("FF0000".toList), ("FFFFFF".toList), true⟩
  else if listHasSub sev ("Major".toList) then
    some ⟨("FFA500".toList), ("FFFFFF".toList), true⟩
  else none

/-- One HTML defect-table data row (line 721): five plain `<td>` cells,
with no class or style attribute on any of them. -/
def html_defect_row (c0 c1 c2 c3 c4 : List Char) : List Char :=
  ("<tr><td>".toList) ++ escape_html c0 ++
  ("</td><td>".toList) ++ escape_html c1 ++
  ("</td><td>".toList) ++ escape_html c2 ++
  ("</td><td>".toList) ++ escape_html c3 ++
  ("</td><td>".toList) ++ escape_html c4 ++
  ("</td></tr>".toList)

/-- XLSX summary value styling (lines 879-884): a value containing
"НЕ РЕКОМЕНДОВАН" gets the red fill, otherwise one containing
"РЕКОМЕНДОВАН" gets the green fill, both with white bold font. -/
def xlsx_summary_value_style (v : List Char) : Option XlsxStyle :=
  if listHasSub v ("НЕ РЕКОМЕНДОВАН".toList) then
    some ⟨("FF0000".toList), ("FFFFFF".toList), true⟩
  else if listHasSub v ("РЕКОМЕНДОВАН".toList) then
    some ⟨("00B050".toList), ("FFFFFF".toList), true⟩
  else none

theorem mem_guard {α : Type} (a b : α) (c : Prop) [Decidable c] :
    (a ∈ if c then [b] else []) ↔ c ∧ a = b := by
  split <;> simp_all

theorem startsWith_append (p s : List Char) : startsWith (p ++ s) p = true := by
  induction p with
  | nil => cases s <;> rfl
  | cons a q ih => simp [startsWith, ih]

theorem pyReplaceChar_append (t : Char) (rep a b : List Char) :
    pyReplaceChar t rep (a ++ b) = pyReplaceChar t rep a ++ pyReplaceChar t rep b := by
  induction a with
  | nil => rfl
  | cons x xs ih => simp [pyReplaceChar, ih]

theorem escape_html_append (a b : List Char) :
    escape_html (a ++ b) = escape_html a ++ escape_html b := by
  simp [escape_html, pyReplaceChar_append]

theorem escape_html_single (c : Char) : escape_html [c] = escapeCharSpec c := by
  by_cases h1 : c = '&'
  · subst h1; rfl
  by_cases h2 : c = '<'
  · subst h2; rfl
  by_cases h3 : c = '>'
  · subst h3; rfl
  by_cases h4 : c = dqc
  · subst h4; rfl
  by_cases h5 : c = sqc
  · subst h5; rfl
  simp [escape_html, escapeCharSpec, pyReplaceChar, h1, h2, h3, h4, h5]

/-- Claim C1 (corrected): whenever `pass + fail = total` and `total > 0`,
the pass and fail percentages of each of the three renderers sum to
exactly 100; but when `total = 0`, the DOCX and HTML renderers compute
pass percentage 0 and fail percentage 100 (not 0), and the XLSX
percentage expressions divide by zero (`none`). -/
theorem c1_theorem (p f t : ℕ) (hpf : p + f = t) (ht : 0 < t) :
    docx_pass_pct p t + docx_fail_pct p t = 100 ∧
    html_pass_pct p t + html_fail_pct p t = 100 ∧
    xlsx_pass_pct p t = some ((p : ℚ) / (t : ℚ) * 100) ∧
    xlsx_fail_pct f t = some ((f : ℚ) / (t : ℚ) * 100) ∧
    (p : ℚ) / (t : ℚ) * 100 + (f : ℚ) / (t : ℚ) * 100 = 100 ∧
    docx_pass_pct p 0 = 0 ∧ docx_fail_pct p 0 = 100 ∧
    html_pass_pct p 0 = 0 ∧ html_fail_pct p 0 = 100 ∧
    xlsx_pass_pct p 0 = none ∧ xlsx_fail_pct f 0 = none := by
  have htq : (0 : ℚ) < (t : ℚ) := by exact_mod_cast ht
  have htne : (t : ℚ) ≠ 0 := ne_of_gt htq
  have hsum : (p : ℚ) + (f : ℚ) = (t : ℚ) := by exact_mod_cast hpf
  refine ⟨by unfold docx_fail_pct; ring, by unfold html_fail_pct; ring,
    ?_, ?_, ?_, ?_, ?_, ?_, ?_, rfl, rfl⟩
  · unfold xlsx_pass_pct; rw [if_neg (by omega)]
  · unfold xlsx_fail_pct; rw [if_neg (by omega)]
  · field_simp
    linarith [hsum]
  · unfold docx_pass_pct; norm_num
  · unfold docx_fail_pct docx_pass_pct; norm_num
  · unfold html_pass_pct; norm_num
  · unfold html_fail_pct html_pass_pct; norm_num

/-- Witness for C1 at the worked example `pass=69, fail=3, total=72`. -/
theorem c1_witness :
    docx_pass_pct 69 72 + docx_fail_pct 69 72 = 100 ∧
    (69 : ℚ) / (72 : ℚ) * 100 + (3 : ℚ) / (72 : ℚ) * 100 = 100 :=
  ⟨(c1_theorem 69 3 72 (by norm_num) (by norm_num)).1,
   (c1_theorem 69 3 72 (by norm_num) (by norm_num)).2.2.2.2.1⟩

/-- Counterexample to C1 as stated: at `total = 0` the DOCX (and HTML)
fail percentage is 100, not 0, and the XLSX percentage raises a
division-by-zero error instead of returning 0. -/
theorem c1_counterexample :
    docx_fail_pct 0 0 = 100 ∧ docx_fail_pct 0 0 ≠ 0 ∧
    html_fail_pct 0 0 = 100 ∧ xlsx_pass_pct 0 0 = none := by
  norm_num [docx_fail_pct, docx_pass_pct, html_fail_pct, html_pass_pct, xlsx_pass_pct]

theorem fmt1_at_575_6 : fmt1 (575 / 6) = ("95.8") := by
  unfold fmt1
  have h : ⌊(575 / 6 : ℚ) * 10 + 1 / 2⌋ = (958 : ℤ) := by
    rw [Int.floor_eq_iff]
    constructor <;> norm_num
  rw [h]
  decide

theorem fmt1_at_25_6 : fmt1 (25 / 6) = ("4.2") := by
  unfold fmt1
  have h : ⌊(25 / 6 : ℚ) * 10 + 1 / 2⌋ = (42 : ℤ) := by
    rw [Int.floor_eq_iff]
    constructor <;> norm_num
  rw [h]
  decide

theorem docx_pass_pct_at : docx_pass_pct 69 72 = 575 / 6 := by
  norm_num [docx_pass_pct]

theorem docx_fail_pct_at : docx_fail_pct 69 72 = 25 / 6 := by
  norm_num [docx_fail_pct, docx_pass_pct]

theorem html_pass_pct_at : html_pass_pct 69 72 = 575 / 6 := by
  norm_num [html_pass_pct]

theorem html_fail_pct_at : html_fail_pct 69 72 = 25 / 6 := by
  norm_num [html_fail_pct, html_pass_pct]

theorem xlsx_pass_pct_at : xlsx_pass_pct 69 72 = some (575 / 6) := by
  norm_num [xlsx_pass_pct]

theorem xlsx_fail_pct_at : xlsx_fail_pct 3 72 = some (25 / 6) := by
  norm_num [xlsx_fail_pct]

/-- Claim C2: for `total=72, pass=69, fail=3` all three renderers format
the pass summary value as "69 (95.8%)" and the fail summary value as
"3 (4.2%)" (one-decimal rounding). -/
theorem c2_theorem :
    docx_pass_cell 69 72 = ("69 (95.8%)") ∧
    docx_fail_cell 69 3 72 = ("3 (4.2%)") ∧
    html_pass_cell 69 72 = ("69 (95.8%)") ∧
    html_fail_cell 69 3 72 = ("3 (4.2%)") ∧
    xlsx_pass_cell 69 72 = some ("69 (95.8%)") ∧
    xlsx_fail_cell 3 72 = some ("3 (4.2%)") := by
  refine ⟨?_, ?_, ?_, ?_, ?_, ?_⟩
  · unfold docx_pass_cell
    rw [docx_pass_pct_at, fmt1_at_575_6]
    decide
  · unfold docx_fail_cell
    rw [docx_fail_pct_at, fmt1_at_25_6]
    decide
  · unfold html_pass_cell
    rw [html_pass_pct_at, fmt1_at_575_6]
    decide
  · unfold html_fail_cell
    rw [html_fail_pct_at, fmt1_at_25_6]
    decide
  · show (xlsx_pass_pct 69 72).map (fun q => toString 69 ++ " (" ++ fmt1 q ++ "%)") =
      some ("69 (95.8%)")
    rw [xlsx_pass_pct_at]
    show some (toString 69 ++ " (" ++ fmt1 (575 / 6) ++ "%)") = some ("69 (95.8%)")
    rw [fmt1_at_575_6]
    decide
  · show (xlsx_fail_pct 3 72).map (fun q => toString 3 ++ " (" ++ fmt1 q ++ "%)") =
      some ("3 (4.2%)")
    rw [xlsx_fail_pct_at]
    show some (toString 3 ++ " (" ++ fmt1 (25 / 6) ++ "%)") = some ("3 (4.2%)")
    rw [fmt1_at_25_6]
    decide

/-- Claim C3: every validation check contributes its error independently
of the others (collected, not short-circuited), a nonempty error list
blocks the submission before any renderer runs, and the scenario
`pass=10, fail=5, total=14` collects the sum-mismatch error and blocks
generation in all formats. -/
theorem c3_theorem (ptc ftc ttc s1 s2 : ℤ) (title : List Char) :
    (VError.sumMismatch ∈ validationErrors ptc ftc ttc s1 s2 title ↔ ptc + ftc ≠ ttc) ∧
    (VError.nonposTotal ∈ validationErrors ptc ftc ttc s1 s2 title ↔ ttc ≤ 0) ∧
    (VError.negDefects ∈ validationErrors ptc ftc ttc s1 s2 title ↔ s1 < 0 ∨ s2 < 0) ∧
    (VError.emptyTitle ∈ validationErrors ptc ftc ttc s1 s2 title ↔ pyStrip title = []) ∧
    (VError.countExceeds ∈ validationErrors ptc ftc ttc s1 s2 title ↔ ttc < ptc ∨ ttc < ftc) ∧
    (validationErrors ptc ftc ttc s1 s2 title ≠ [] →
      submit ptc ftc ttc s1 s2 title =
        SubmitResult.blocked (validationErrors ptc ftc ttc s1 s2 title)) ∧
    VError.sumMismatch ∈ validationErrors 10 5 14 s1 s2 title ∧
    submit 10 5 14 s1 s2 title = SubmitResult.blocked (validationErrors 10 5 14 s1 s2 title) := by
  have hne : validationErrors 10 5 14 s1 s2 title ≠ [] := by
    unfold validationErrors
    rw [if_pos (by norm_num : (10 : ℤ) + 5 ≠ 14)]
    simp
  refine ⟨?_, ?_, ?_, ?_, ?_, ?_, ?_, ?_⟩
  · simp [validationErrors, List.mem_append, mem_guard]
  · simp [validationErrors, List.mem_append, mem_guard]
  · simp [validationErrors, List.mem_append, mem_guard]
  · simp [validationErrors, List.mem_append, mem_guard]
  · simp [validationErrors, List.mem_append, mem_guard]
  · intro h; unfold submit; rw [if_neg h]
  · unfold validationErrors
    rw [if_pos (by norm_num : (10 : ℤ) + 5 ≠ 14)]
    simp
  · unfold submit; rw [if_neg hne]

/-- Witness for C3 at `pass=10, fail=5, total=14, s1=2, s2=1`. -/
theorem c3_witness :
    VError.sumMismatch ∈ validationErrors 10 5 14 2 1 ("T".toList) ∧
    submit 10 5 14 2 1 ("T".toList) =
      SubmitResult.blocked (validationErrors 10 5 14 2 1 ("T".toList)) :=
  ⟨(c3_theorem 10 5 14 2 1 ("T".toList)).2.2.2.2.2.2.1,
   (c3_theorem 10 5 14 2 1 ("T".toList)).2.2.2.2.2.1 (by decide)⟩

/-- Claim C4 (corrected): the three renderers are invoked sequentially
inside one try/except, so an exception raised in any renderer aborts the
whole generation and no format's output is offered; only when all three
succeed are the three buffers produced. -/
theorem c4_theorem {ε α : Type} :
    (∀ (e : ε) (r2 r3 : Except ε α), generateReports (Except.error e) r2 r3 = Except.error e) ∧
    (∀ (a : α) (e : ε) (r3 : Except ε α),
      generateReports (Except.ok a) (Except.error e) r3 = Except.error e) ∧
    (∀ (a b : α) (e : ε),
      generateReports (Except.ok a) (Except.ok b) (Except.error e) = Except.error e) ∧
    (∀ a b c : α,
      @generateReports ε α (Except.ok a) (Except.ok b) (Except.ok c) = Except.ok (a, b, c)) :=
  ⟨fun _ _ _ => rfl, fun _ _ _ => rfl, fun _ _ _ => rfl, fun _ _ _ => rfl⟩

/-- Counterexample to C4 as stated: when the DOCX renderer raises, the
HTML and XLSX renderers would succeed, yet the whole generation fails
and neither of their outputs is produced. -/
theorem c4_counterexample :
    generateReports (Except.error ("DOCX renderer raised")) (Except.ok (1 : ℕ)) (Except.ok 2) =
      Except.error ("DOCX renderer raised") ∧
    (generateReports (Except.error ("DOCX renderer raised"))
      (Except.ok (1 : ℕ)) (Except.ok 2)).isOk = false :=
  ⟨rfl, rfl⟩

/-- Claim C5 (corrected): for a zero-row table with a nonempty column
schema, only the HTML renderer shows a "Нет данных" placeholder; the
DOCX renderer emits a two-row table (header plus one row of empty
cells, without the grid style), the XLSX renderer emits nothing for the
module, and the DOCX "no data" paragraph appears only in the
zero-column case. -/
theorem c5_theorem (df : Df) (hcols : df.cols ≠ []) (hrows : df.rows = []) :
    add_table_from_df df =
      [DocxBlock.table [df.cols, df.cols.map (fun _ => [])] false, DocxBlock.para []] ∧
    listHasSub (html_module_table df) ("Нет данных".toList) = true ∧
    (∀ name, xlsx_module_rows [(name, df)] = []) ∧
    (∀ rows, add_table_from_df ⟨[], rows⟩ =
      [DocxBlock.para ("Нет данных для отображения".toList), DocxBlock.para []]) := by
  refine ⟨?_, ?_, ?_, ?_⟩
  · unfold add_table_from_df
    rw [if_neg (by rw [List.length_eq_zero]; exact hcols), if_pos hrows]
  · unfold html_module_table
    rw [if_pos hrows]
    decide
  · intro name
    simp [xlsx_module_rows, hrows]
  · intro rows
    rfl

/-- Witness for C5 at the zero-row table with the fixed 4-column schema. -/
theorem c5_witness :
    listHasSub (html_module_table emptyTestDf) ("Нет данных".toList) = true :=
  (c5_theorem emptyTestDf (by decide) rfl).2.1

/-- Counterexample to C5 as stated: for a zero-row 4-column module table
the DOCX renderer emits a header-plus-blank-row table, not the "no
data" placeholder, and the XLSX renderer emits no rows at all. -/
theorem c5_counterexample :
    DocxBlock.para ("Нет данных для отображения".toList) ∉ add_table_from_df emptyTestDf ∧
    add_table_from_df emptyTestDf =
      [DocxBlock.table [emptyTestDf.cols, [[], [], [], []]] false, DocxBlock.para []] ∧
    xlsx_module_rows [(("Модуль".toList), emptyTestDf)] = [] := by
  refine ⟨by decide, by decide, by decide⟩

/-- Claim C6 (corrected): each non-blank limitations line becomes one
item of a bulleted (not numbered) list: DOCX prefixes "• " to every
stripped line (with no special-casing of leading digits) and HTML emits
one `<li>` per line inside a `<ul>`. -/
theorem c6_theorem (lim : List Char) :
    (∀ item ∈ docx_limitations lim, startsWith item ("• ".toList) = true) ∧
    (docx_limitations lim).length =
      ((splitOnChar '\n' lim).filter (fun l => !(pyStrip l).isEmpty)).length ∧
    docx_limitations ("Item A\nItem B".toList) = [("• Item A".toList), ("• Item B".toList)] ∧
    docx_limitations ("1. Item A".toList) = [("• 1. Item A".toList)] ∧
    html_limitations ("Item A\nItem B".toList) =
      ("<h2>5. ОГРАНИЧЕНИЯ ТЕСТИРОВАНИЯ</h2><ul><li>Item A</li><li>Item B</li></ul>".toList) := by
  refine ⟨?_, ?_, by decide, by decide, by decide⟩
  · intro item hitem
    unfold docx_limitations at hitem
    rcases List.mem_map.mp hitem with ⟨l, _, rfl⟩
    exact startsWith_append ("• ".toList) (pyStrip l)
  · unfold docx_limitations
    simp

/-- Witness for C6: the first rendered limitations item carries the
bullet prefix. -/
theorem c6_witness : startsWith ("• Item A".toList) ("• ".toList) = true :=
  (c6_theorem ("Item A\nItem B".toList)).1 ("• Item A".toList) (by decide)

/-- Counterexample to C6 as stated: the limitations field "Item A\nItem B"
renders as the bulleted items "• Item A"/"• Item B" and an HTML `<ul>`,
not as the numbered items "1. Item A"/"2. Item B", and a user-numbered
line still receives a bullet. -/
theorem c6_counterexample :
    docx_limitations ("Item A\nItem B".toList) = [("• Item A".toList), ("• Item B".toList)] ∧
    docx_limitations ("Item A\nItem B".toList) ≠ [("1. Item A".toList), ("2. Item B".toList)] ∧
    docx_limitations ("1. Item A".toList) = [("• 1. Item A".toList)] ∧
    listHasSub (html_limitations ("Item A\nItem B".toList)) ("<ol>".toList) = false ∧
    listHasSub (html_limitations ("Item A\nItem B".toList)) ("1. Item A".toList) = false := by
  refine ⟨by decide, by decide, by decide, by decide, by decide⟩

/-- Claim C7 (corrected): in the XLSX defect table a severity containing
"Critical" gets the red FF0000 fill and one containing "Major" (and not
"Critical") gets the orange FFA500 fill, both with white bold font; in
the HTML defect table the severity cell is a plain `<td>` with no class
or style. -/
theorem c7_theorem (sev : List Char) :
    (listHasSub sev ("Critical".toList) = true →
      xlsx_severity_style sev = some ⟨("FF0000".toList), ("FFFFFF".toList), true⟩) ∧
    (listHasSub sev ("Critical".toList) = false →
      listHasSub sev ("Major".toList) = true →
      xlsx_severity_style sev = some ⟨("FFA500".toList), ("FFFFFF".toList), true⟩) ∧
    html_defect_row ("BUG-SEC-001".toList) ("Безопасность".toList)
        ("Уязвимость".toList) ("Critical (S1)".toList) ("New".toList) =
      ("<tr><td>BUG-SEC-001</td><td>Безопасность</td><td>Уязвимость</td><td>Critical (S1)</td><td>New</td></tr>".toList) := by
  refine ⟨?_, ?_, by decide⟩
  · intro h
    unfold xlsx_severity_style
    rw [if_pos h]
  · intro h1 h2
    unfold xlsx_severity_style
    rw [if_neg (by simp only [h1]; decide), if_pos h2]

/-- Witness for C7 at the severities "Critical (S1)" and "Major (S2)". -/
theorem c7_witness :
    xlsx_severity_style ("Critical (S1)".toList) =
      some ⟨("FF0000".toList), ("FFFFFF".toList), true⟩ ∧
    xlsx_severity_style ("Major (S2)".toList) =
      some ⟨("FFA500".toList), ("FFFFFF".toList), true⟩ :=
  ⟨(c7_theorem ("Critical (S1)".toList)).1 (by decide),
   (c7_theorem ("Major (S2)".toList)).2.1 (by decide) (by decide)⟩

/-- Counterexample to C7 as stated: the HTML defect rows for "Critical
(S1)" and "Major (S2)" contain no class and no style attribute at all,
so the severity gets no distinguishing style in HTML. -/
theorem c7_counterexample :
    listHasSub (html_defect_row ("BUG-SEC-001".toList) ("Безопасность".toList)
      ("Уязвимость".toList) ("Critical (S1)".toList) ("New".toList)) ("class".toList) = false ∧
    listHasSub (html_defect_row ("BUG-SEC-001".toList) ("Безопасность".toList)
      ("Уязвимость".toList) ("Critical (S1)".toList) ("New".toList)) ("style".toList) = false ∧
    listHasSub (html_defect_row ("BUG-SEARCH-001".toList) ("Поиск".toList)
      ("Опечатки".toList) ("Major (S2)".toList) ("New".toList)) ("class".toList) = false := by
  refine ⟨by decide, by decide, by decide⟩

/-- Claim C8: in both chart-producing functions the severity bar chart's
y-axis upper limit is `max(s1, s2, 1) * 1.3`, i.e. 1.3 times the larger
count with a floor of 1; at `s1 = s2 = 0` it is 1.3, and it is always
positive. -/
theorem c8_theorem (s1 s2 : ℕ) :
    docx_bar_ylim s1 s2 = spec_bar_ylim s1 s2 ∧
    chart_bar_ylim s1 s2 = spec_bar_ylim s1 s2 ∧
    docx_bar_ylim 0 0 = 13 / 10 ∧
    chart_bar_ylim 0 0 = 13 / 10 ∧
    0 < docx_bar_ylim s1 s2 ∧
    0 < chart_bar_ylim s1 s2 := by
  have hcast : ((max (max s1 s2) 1 : ℕ) : ℚ) = max (max (s1 : ℚ) (s2 : ℚ)) 1 := by
    push_cast
    rfl
  have h1 : 0 < max (max s1 s2) 1 := lt_of_lt_of_le Nat.zero_lt_one (le_max_right _ _)
  have hpos : 0 < ((max (max s1 s2) 1 : ℕ) : ℚ) := by exact_mod_cast h1
  refine ⟨?_, ?_, by simp [docx_bar_ylim], by simp [chart_bar_ylim], ?_, ?_⟩
  · unfold docx_bar_ylim spec_bar_ylim; rw [hcast]
  · unfold chart_bar_ylim spec_bar_ylim; rw [hcast]
  · unfold docx_bar_ylim; exact mul_pos hpos (by norm_num)
  · unfold chart_bar_ylim; exact mul_pos hpos (by norm_num)

/-- Claim C9: `escape_html` equals the per-character entity map on every
string (exactly the five special characters are replaced, ampersand
first, so produced entities are never corrupted), and a non-string
input is converted with `str()`. -/
theorem c9_theorem :
    (∀ s : List Char, escape_html s = escapeHtmlSpec s) ∧
    (∀ n : ℤ, pyEscapeAny (PyVal.int n) = (toString n).toList) := by
  constructor
  · intro s
    induction s with
    | nil => rfl
    | cons c cs ih =>
      have h : c :: cs = [c] ++ cs := rfl
      rw [h, escape_html_append, escape_html_single, ih]
      rfl
  · intro n
    rfl

/-- Claim C10: in the XLSX summary block a value containing
"НЕ РЕКОМЕНДОВАН" gets the red fill with white bold font, otherwise a
value containing "РЕКОМЕНДОВАН" gets the green fill; since the negative
substring is tested first, "НЕ РЕКОМЕНДОВАН К ВЫПУСКУ" — which also
contains "РЕКОМЕНДОВАН" — is colored red, not green. -/
theorem c10_theorem (v : List Char) :
    (listHasSub v ("НЕ РЕКОМЕНДОВАН".toList) = true →
      xlsx_summary_value_style v = some ⟨("FF0000".toList), ("FFFFFF".toList), true⟩) ∧
    (listHasSub v ("НЕ РЕКОМЕНДОВАН".toList) = false →
      listHasSub v ("РЕКОМЕНДОВАН".toList) = true →
      xlsx_summary_value_style v = some ⟨("00B050".toList), ("FFFFFF".toList), true⟩) ∧
    listHasSub ("НЕ РЕКОМЕНДОВАН К ВЫПУСКУ".toList) ("РЕКОМЕНДОВАН".toList) = true ∧
    xlsx_summary_value_style ("НЕ РЕКОМЕНДОВАН К ВЫПУСКУ".toList) =
      some ⟨("FF0000".toList), ("FFFFFF".toList), true⟩ := by
  refine ⟨?_, ?_, by decide, by decide⟩
  · intro h
    unfold xlsx_summary_value_style
    rw [if_pos h]
  · intro h1 h2
    unfold xlsx_summary_value_style
    rw [if_neg (by simp only [h1]; decide), if_pos h2]

/-- Witness for C10 at the two release statuses offered by the form. -/
theorem c10_witness :
    xlsx_summary_value_style ("НЕ РЕКОМЕНДОВАН К ВЫПУСКУ".toList) =
      some ⟨("FF0000".toList), ("FFFFFF".toList), true⟩ ∧
    xlsx_summary_value_style ("РЕКОМЕНДОВАН К ВЫПУСКУ".toList) =
      some ⟨("00B050".toList), ("FFFFFF".toList), true⟩ :=
  ⟨(c10_theorem ("НЕ РЕКОМЕНДОВАН К ВЫПУСКУ".toList)).1 (by decide),
   (c10_theorem ("РЕКОМЕНДОВАН К ВЫПУСКУ".toList)).2.1 (by decide) (by decide)⟩
